import Mathlib

/-!
Verification of `src/source/filters/filter-dynamic-mask.cpp` (StreamFX dynamic
mask filter).  The definitions below are a shallow embedding of the relevant
parts of the C++ source: pure data flow becomes Lean functions, the fallible
external calls (texture retrieval, filter begin, shader pass) become explicit
outcome oracles, and the global GPU sRGB flags become an explicit state record
threaded through each phase of `video_render`.

Numeric settings values are modelled as rationals.  The C++ code performs no
arithmetic on them, only `double -> float` and `float -> double` casts which
are exact on every float-representable value (the range the round-trip claim
quantifies over), so the casts are modelled as the identity.
-/

namespace DynamicMask

/-- The four mask channels, mirroring the C++ `enum class channel`
(Red = 0, Green = 1, Blue = 2, Alpha = 3) listed in `channel_translations`. -/
inductive Channel
  | red
  | green
  | blue
  | alpha
deriving DecidableEq, Repr

/-- OBS `gs_color_space` values in declaration order:
`GS_CS_SRGB = 0`, `GS_CS_SRGB_16F = 1`, `GS_CS_709_EXTENDED = 2`,
`GS_CS_709_SCRGB = 3`. -/
inductive GsColorSpace
  | srgb
  | srgb16f
  | ext709
  | scrgb709
deriving DecidableEq, Repr

/-- Ordinal of a `gs_color_space` value, used for the `<=` comparisons in the
source. -/
def GsColorSpace.toOrd : GsColorSpace → Nat
  | .srgb => 0
  | .srgb16f => 1
  | .ext709 => 2
  | .scrgb709 => 3

/-- The test `space <= GS_CS_SRGB_16F` appearing at lines 269 and 294 of the
source. -/
def GsColorSpace.le16f (s : GsColorSpace) : Bool :=
  s.toOrd ≤ 1

/-- OBS color formats used by the filter: `GS_RGBA`, `GS_RGBA16F`,
`GS_RGBA_UNORM`. -/
inductive GsColorFormat
  | rgba
  | rgba16f
  | rgbaUnorm
deriving DecidableEq, Repr

/-- The `switch (color_space)` mapping of `video_tick` (lines 255-266 and
280-291).  `gs_color_space` has exactly the four values above, so the
`default:` branch of the C++ switch (which selects `GS_RGBA_UNORM`) is
unreachable; `rgbaUnorm` is kept in the format type for fidelity. -/
def formatForSpace : GsColorSpace → GsColorFormat
  | .srgb => .rgba
  | .srgb16f => .rgba16f
  | .ext709 => .rgba16f
  | .scrgb709 => .rgba16f

/-- What `video_tick` learns about one source: the color space returned by
`obs_source_get_color_space` for the preferred list `{GS_CS_SRGB}`, and
whether the source's output flags contain `OBS_SOURCE_SRGB`. -/
structure SourceInfo where
  colorSpace : GsColorSpace
  srgbAware : Bool
deriving DecidableEq, Repr

/-- Environment of one `video_tick` call: the base (upstream target) source
information and, when `_input.lock()` succeeds, the secondary source
information. -/
structure TickEnv where
  base : SourceInfo
  input : Option SourceInfo
deriving DecidableEq, Repr

/-- Per-instance state touched by `video_tick` and `video_render`: capture
validity flags, render targets (identified by their color format), textures
(identified by an id, `none` meaning no/null texture object), negotiated
spaces/formats, sRGB eligibility flags and the debug-texture selector. -/
structure InstState where
  haveBase : Bool
  baseRt : Option GsColorFormat
  baseTex : Option Nat
  baseColorSpace : GsColorSpace
  baseColorFormat : GsColorFormat
  baseSrgb : Bool
  haveInput : Bool
  inputRt : Option GsColorFormat
  inputTex : Option Nat
  inputColorSpace : GsColorSpace
  inputColorFormat : GsColorFormat
  inputSrgb : Bool
  haveFinal : Bool
  finalRt : Option GsColorFormat
  finalTex : Option Nat
  finalSrgb : Bool
  debugTexture : Int
deriving DecidableEq, Repr

/-- Instance state as built by the constructor (lines 111-136): all validity
flags false, no render targets or textures, `GS_CS_SRGB`/`GS_RGBA`
negotiation defaults, debug selector `-1`. -/
def initState : InstState :=
  { haveBase := false
    baseRt := none
    baseTex := none
    baseColorSpace := .srgb
    baseColorFormat := .rgba
    baseSrgb := false
    haveInput := false
    inputRt := none
    inputTex := none
    inputColorSpace := .srgb
    inputColorFormat := .rgba
    inputSrgb := false
    haveFinal := false
    finalRt := none
    finalTex := none
    finalSrgb := false
    debugTexture := -1 }

/-- `dynamic_mask_instance::video_tick` (lines 247-304).  Clears the three
validity flags, renegotiates color space and format for the base and (when
bound) the secondary source, and computes the sRGB eligibility flags.  Note
that line 294 of the source computes `_input_srgb` from `_base_color_space`,
which this definition reproduces faithfully. -/
def video_tick (env : TickEnv) (s : InstState) : InstState :=
  let s1 : InstState :=
    { s with
      haveBase := false
      baseColorSpace := env.base.colorSpace
      baseColorFormat := formatForSpace env.base.colorSpace
      baseSrgb := env.base.srgbAware && env.base.colorSpace.le16f }
  let s2 : InstState :=
    match env.input with
    | some inp =>
      { s1 with
        haveInput := false
        inputColorSpace := inp.colorSpace
        inputColorFormat := formatForSpace inp.colorSpace
        inputSrgb := inp.srgbAware && env.base.colorSpace.le16f }
    | none => { s1 with haveInput := false }
  { s2 with haveFinal := false, finalSrgb := s2.baseSrgb }

/-- The sRGB eligibility rule as the specification states it for a single
source: the source declares sRGB-aware output and its own selected space is in
the 8-bit-equivalent range (at most `GS_CS_SRGB_16F`). -/
def specSrgbEligible (src : SourceInfo) : Bool :=
  src.srgbAware && src.colorSpace.le16f

/-! ### Settings, parameter update and serialization -/

/-- Configuration keys read or written by `update`, `save` and
`get_defaults2`:
`Filter.DynamicMask.Input` (string), `Filter.DynamicMask.Channel` (int, UI
only), `Filter.DynamicMask.Channel.Value.<c>`,
`Filter.DynamicMask.Channel.Multiplier.<c>`,
`Filter.DynamicMask.Channel.Input.<c1>.<c2>` (doubles) and `Debug.Texture`
(int). -/
inductive SettingKey
  | inputName
  | channelSel
  | channelValue (c : Channel)
  | channelMultiplier (c : Channel)
  | channelInput (c1 c2 : Channel)
  | debugTexture
deriving DecidableEq

/-- A settings object: the user-set values by key.  `none` models an absent
key. -/
structure Settings where
  doubles : SettingKey → Option ℚ
  ints : SettingKey → Option Int
  strings : SettingKey → Option String

/-- Default double registered by `dynamic_mask_factory::get_defaults2`
(lines 724-736): `1.0` for every `Channel.Value.<c>` and
`Channel.Multiplier.<c>` key, `0.0` for every `Channel.Input.<c1>.<c2>` key
(and for keys with no registered double default, `obs_data_get_double`
returns `0`). -/
def defaultDouble : SettingKey → ℚ
  | .channelValue _ => 1
  | .channelMultiplier _ => 1
  | _ => 0

/-- Default integer registered by `get_defaults2`: `Red` (= 0) for the channel
selector and `-1` for `Debug.Texture`. -/
def defaultInt : SettingKey → Int
  | .debugTexture => -1
  | _ => 0

/-- `obs_data_get_double`: the stored value, or the registered default when
the key is absent. -/
def Settings.getDouble (S : Settings) (k : SettingKey) : ℚ :=
  (S.doubles k).getD (defaultDouble k)

/-- `obs_data_get_int`: the stored value, or the registered default when the
key is absent. -/
def Settings.getInt (S : Settings) (k : SettingKey) : Int :=
  (S.ints k).getD (defaultInt k)

/-- A settings object with every key absent. -/
def emptySettings : Settings :=
  { doubles := fun _ => none
    ints := fun _ => none
    strings := fun _ => none }

/-- Per-channel settings (`channel_data`): offset (`value`), scale, and the
four weights over the secondary channels (`values`). -/
structure ChannelData where
  value : ℚ
  scale : ℚ
  values : Channel → ℚ

/-- The precalculated transform `_precalc`: offset vector (`base`), scale
vector, and the 4x4 mix matrix whose row for output channel `c` holds that
channel's weights. -/
structure Precalc where
  base : Channel → ℚ
  scale : Channel → ℚ
  matrix : Channel → Channel → ℚ

/-- The parameter store of the instance: `_channels`, `_precalc`,
`_debug_texture`.  The C++ `_channels` is a `std::map`; the update loop
inserts a default entry when a channel is missing and then overwrites every
field of the entry, so the map is modelled as a total function. -/
structure ParamState where
  channels : Channel → ChannelData
  precalc : Precalc
  debugTexture : Int

/-- Parameter store with everything zeroed (the members before the
constructor's call to `update`). -/
def initParams : ParamState :=
  { channels := fun _ => { value := 0, scale := 0, values := fun _ => 0 }
    precalc := { base := fun _ => 0, scale := fun _ => 0, matrix := fun _ _ => 0 }
    debugTexture := -1 }

/-- The data-store part of `dynamic_mask_instance::update` (lines 162-208).
For each output channel the loop reads the offset (`Channel.Value.<c>`), the
scale (`Channel.Multiplier.<c>`) and the four weights
(`Channel.Input.<c>.<c2>`) via `obs_data_get_double`, writes them into
`_channels` and mirrors them into `_precalc` (matrix row `x`/`y`/`z`/`t` for
Red/Green/Blue/Alpha), then reads `Debug.Texture`.  Each iteration writes all
fields of its own channel and no other channel's, so the loop is expressed
pointwise.  The `throw` at line 170 is dead code (a `std::map` insert followed
by `find` of the same key always succeeds), so the operation is total. -/
def updateChannels (S : Settings) (p : ParamState) : ParamState :=
  { p with
    channels := fun c =>
      { value := S.getDouble (.channelValue c)
        scale := S.getDouble (.channelMultiplier c)
        values := fun c2 => S.getDouble (.channelInput c c2) }
    precalc :=
      { base := fun c => S.getDouble (.channelValue c)
        scale := fun c => S.getDouble (.channelMultiplier c)
        matrix := fun c c2 => S.getDouble (.channelInput c c2) }
    debugTexture := S.getInt .debugTexture }

/-- The numeric part of `dynamic_mask_instance::save` (lines 217-239): for
each output channel, writes the offset, scale and four weights from
`_channels` back into the settings under the same keys `update` reads.  Keys
`save` does not write (the input name aside, written at lines 213-215 from the
binding) keep their previous contents.  No value is clamped or otherwise
transformed. -/
def saveChannels (p : ParamState) (S : Settings) : Settings :=
  { S with
    doubles := fun k =>
      match k with
      | .channelValue c => some (p.channels c).value
      | .channelMultiplier c => some (p.channels c).scale
      | .channelInput c c2 => some ((p.channels c).values c2)
      | _ => S.doubles k }

/-! ### The render pipeline -/

/-- The global GPU sRGB-related render flags:
`gs_framebuffer_srgb_enabled` / `gs_enable_framebuffer_srgb` and
`gs_get_linear_srgb` / `gs_set_linear_srgb`. -/
structure GsFlags where
  fbSrgb : Bool
  linearSrgb : Bool
deriving DecidableEq, Repr

/-- A convenient concrete flag state. -/
def flags0 : GsFlags :=
  { fbSrgb := false, linearSrgb := false }

/-- Dimensions reported by the locked secondary source. -/
structure InputDims where
  width : Nat
  height : Nat
deriving DecidableEq, Repr

/-- Outcome oracle for one `video_render` call: the values returned by the
host and the results of the fallible external calls.  A texture-retrieval
field of `none` means `get_texture` threw; `some t` means it yielded texture
`t`.  A `...Throws` flag set means an exception was thrown inside the
corresponding try block (and caught by the handlers in the source). -/
structure RenderEnv where
  selfOk : Bool
  parentOk : Bool
  targetOk : Bool
  width : Nat
  height : Nat
  input : Option InputDims
  beginOk : Bool
  baseRenderThrows : Bool
  baseGetTex : Option Nat
  inputRenderThrows : Bool
  inputGetTex : Option Nat
  finalRenderThrows : Bool
  finalGetTex : Option Nat
  hostHasImageParam : Bool
deriving DecidableEq, Repr

/-- Result of one phase of `video_render` that may run a render pass. -/
structure PhaseOut where
  st : InstState
  gs : GsFlags
  ran : Bool
deriving DecidableEq, Repr

/-- Capture of the base texture (lines 330-407).  Skipped when `_have_base`
already holds.  Otherwise: the render target is (re)allocated on format
mismatch, the previous sRGB flags are saved, `linear_srgb` is set to
`_base_srgb` and `framebuffer_srgb` to false, and the filter chain is rendered
into the target.  On success `_have_base` is set (line 394) and only then is
the texture retrieved (line 395); exceptions from the inner block or from
`get_texture` are caught at lines 396-402.  Lines 405-406 restore both sRGB
flags on every path. -/
def basePhase (env : RenderEnv) (s : InstState) (g : GsFlags) : PhaseOut :=
  if s.haveBase then { st := s, gs := g, ran := false }
  else
    let s := if s.baseRt = some s.baseColorFormat then s
             else { s with baseRt := some s.baseColorFormat }
    let previousSrgb := g.fbSrgb
    let previousLsrgb := g.linearSrgb
    let g : GsFlags := { fbSrgb := false, linearSrgb := s.baseSrgb }
    let s :=
      if env.beginOk then
        if env.baseRenderThrows then s
        else
          let s := { s with haveBase := true }
          match env.baseGetTex with
          | some t => { s with baseTex := some t }
          | none => s
      else s
    { st := s
      gs := { g with fbSrgb := previousSrgb, linearSrgb := previousLsrgb }
      ran := true }

/-- Capture of the secondary (input) texture (lines 409-488).  Skipped when
`_have_input` already holds.  With no bound input, the secondary frame aliases
the base: validity, texture, format and space are copied (lines 411-416) and
no render pass runs.  With a bound input the structure mirrors the base
capture, except that `_have_input` is likewise set before `get_texture`
(lines 477-478) and the flag restoration is at lines 485-486. -/
def inputPhase (env : RenderEnv) (s : InstState) (g : GsFlags) : PhaseOut :=
  if s.haveInput then { st := s, gs := g, ran := false }
  else
    match env.input with
    | none =>
      { st := { s with
                haveInput := s.haveBase
                inputTex := s.baseTex
                inputColorFormat := s.baseColorFormat
                inputColorSpace := s.baseColorSpace }
        gs := g
        ran := false }
    | some _ =>
      let s := if s.inputRt = some s.inputColorFormat then s
               else { s with inputRt := some s.inputColorFormat }
      let previousLsrgb := g.linearSrgb
      let g := { g with linearSrgb := s.inputSrgb }
      let previousSrgb := g.fbSrgb
      let g := { g with fbSrgb := false }
      let s :=
        if env.inputRenderThrows then s
        else
          let s := { s with haveInput := true }
          match env.inputGetTex with
          | some t => { s with inputTex := some t }
          | none => s
      { st := s
        gs := { g with fbSrgb := previousSrgb, linearSrgb := previousLsrgb }
        ran := true }

/-- The textures bound to the mixing effect's `pMaskInputA` / `pMaskInputB`
parameters (lines 540-541). -/
structure MixBind where
  texA : Option Nat
  texB : Option Nat
deriving DecidableEq, Repr

/-- Result of the final (mixing) phase. -/
structure FinalOut where
  st : InstState
  gs : GsFlags
  mix : Option MixBind
deriving DecidableEq, Repr

/-- The mixing pass (lines 490-569).  Gated only on `!_have_final &&
_have_base` (line 491).  Sets both sRGB flags to `_final_srgb`, binds the base
and input textures and the precalculated vectors/matrix, draws the fullscreen
pass, then retrieves the final texture and only afterwards sets `_have_final`
(lines 559-560); exceptions are caught at lines 561-565 and the flags are
restored at lines 567-568 on every path. -/
def finalPhase (env : RenderEnv) (s : InstState) (g : GsFlags) : FinalOut :=
  if !s.haveFinal && s.haveBase then
    let s := if s.finalRt = some s.baseColorFormat then s
             else { s with finalRt := some s.baseColorFormat }
    let previousSrgb := g.fbSrgb
    let previousLsrgb := g.linearSrgb
    let g : GsFlags := { fbSrgb := s.finalSrgb, linearSrgb := s.finalSrgb }
    let bind : MixBind := { texA := s.baseTex, texB := s.inputTex }
    let s :=
      if env.finalRenderThrows then s
      else
        match env.finalGetTex with
        | some t => { s with finalTex := some t, haveFinal := true }
        | none => s
    { st := s
      gs := { g with fbSrgb := previousSrgb, linearSrgb := previousLsrgb }
      mix := some bind }
  else { st := s, gs := g, mix := none }

/-- The debug-texture override (lines 571-581): selector `0` presents the base
capture as the final result, `1` presents the input capture, anything else
falls through to the computed final result.  Only `_have_final` and
`_final_tex` are written. -/
def overridePhase (s : InstState) : InstState :=
  if s.debugTexture = 0 then
    { s with haveFinal := s.haveBase, finalTex := s.baseTex }
  else if s.debugTexture = 1 then
    { s with haveFinal := s.haveInput, finalTex := s.inputTex }
  else s

/-- Whether the host is told to draw this filter or to skip it. -/
inductive RenderResult
  | drawn
  | skipped
deriving DecidableEq, Repr

/-- Result of the final draw into the host's render target. -/
structure DrawOut where
  gs : GsFlags
  result : RenderResult
  shown : Option Nat
deriving DecidableEq, Repr

/-- The draw of the chosen final texture into the host's target
(lines 583-627).  Aborts (skip) when the final slot is invalid or its texture
object is null (line 584).  Otherwise the framebuffer-sRGB flag is set to the
current linear-sRGB mode (line 606); a missing `image` parameter on the host
shader restores the flag and skips (lines 610-614); otherwise the final
texture is bound and drawn and the flag restored (line 626). -/
def drawPhase (env : RenderEnv) (s : InstState) (g : GsFlags) : DrawOut :=
  if !s.haveFinal || s.finalTex = none then
    { gs := g, result := .skipped, shown := none }
  else
    let previousSrgb := g.fbSrgb
    let g := { g with fbSrgb := g.linearSrgb }
    if env.hostHasImageParam then
      { gs := { g with fbSrgb := previousSrgb }, result := .drawn, shown := s.finalTex }
    else
      { gs := { g with fbSrgb := previousSrgb }, result := .skipped, shown := none }

/-- The early-exit guard of `video_render` (line 322): any of self, parent or
target missing, or a zero base dimension. -/
def skipEarly (env : RenderEnv) : Bool :=
  !env.selfOk || !env.parentOk || !env.targetOk || env.width == 0 || env.height == 0

/-- The second early-exit guard (line 325): a bound input reporting a zero
dimension. -/
def inputDimsZero (env : RenderEnv) : Bool :=
  match env.input with
  | some i => i.width == 0 || i.height == 0
  | none => false

/-- Trace of what one `video_render` call did. -/
structure RenderTrace where
  basePassRan : Bool
  inputPassRan : Bool
  mixBind : Option MixBind
  shown : Option Nat
  result : RenderResult
deriving DecidableEq, Repr

/-- Full result of one `video_render` call. -/
structure RenderOut where
  st : InstState
  gs : GsFlags
  trace : RenderTrace
deriving DecidableEq, Repr

/-- The trace of a call that skipped before any phase. -/
def skippedTrace : RenderTrace :=
  { basePassRan := false
    inputPassRan := false
    mixBind := none
    shown := none
    result := .skipped }

/-- `dynamic_mask_instance::video_render` (lines 306-628): early-exit guards,
base capture, input capture (or alias), mixing pass, debug override, final
draw. -/
def video_render (env : RenderEnv) (s : InstState) (g : GsFlags) : RenderOut :=
  if skipEarly env then { st := s, gs := g, trace := skippedTrace }
  else if inputDimsZero env then { st := s, gs := g, trace := skippedTrace }
  else
    let b := basePhase env s g
    let i := inputPhase env b.st b.gs
    let f := finalPhase env i.st i.gs
    let o := overridePhase f.st
    let d := drawPhase env o f.gs
    { st := o
      gs := d.gs
      trace :=
        { basePassRan := b.ran
          inputPassRan := i.ran
          mixBind := f.mix
          shown := d.shown
          result := d.result } }

/-- The instance state after the capture phases and the mixing pass of a
non-skipped `video_render` call, before the debug override is applied. -/
def midState (env : RenderEnv) (s : InstState) (g : GsFlags) : InstState :=
  let b := basePhase env s g
  let i := inputPhase env b.st b.gs
  (finalPhase env i.st i.gs).st

/-! ### The secondary source binding -/

/-- The binding's references: `_input` (weak source reference), `_input_child`
(the `source_active_child` recursion guard), `_input_vs` (showing reference),
`_input_ac` (active reference).  Each holds the id of the source it refers to,
or `none` when released. -/
structure BindState where
  inputSrc : Option Nat
  inputChild : Option Nat
  inputVs : Option Nat
  inputAc : Option Nat
deriving DecidableEq, Repr

/-- The unbound state: no references held. -/
def unbound : BindState :=
  { inputSrc := none, inputChild := none, inputVs := none, inputAc := none }

/-- Environment of one `acquire` call: the source the name resolves to
(`none` when `weak_source` throws), whether constructing the
`source_active_child` guard throws (render cycle), and whether the owning
filter and its parent are currently active / showing. -/
structure AcquireEnv where
  resolved : Option Nat
  wouldCycle : Bool
  selfAndParentActive : Bool
  selfAndParentShowing : Bool
deriving DecidableEq, Repr

/-- `deactivate` (lines 665-668): drops the active reference. -/
def deactivateB (s : BindState) : BindState :=
  { s with inputAc := none }

/-- `hide` (lines 651-654): drops the showing reference. -/
def hideB (s : BindState) : BindState :=
  { s with inputVs := none }

/-- `activate` (lines 656-663): returns unchanged when no input is bound or
the filter (or its parent) is inactive; otherwise forwards an active reference
to the bound source. -/
def activateB (env : AcquireEnv) (s : BindState) : BindState :=
  match s.inputSrc with
  | none => s
  | some src => if env.selfAndParentActive then { s with inputAc := some src } else s

/-- `show` (lines 642-649): the showing analogue of `activate`. -/
def showB (env : AcquireEnv) (s : BindState) : BindState :=
  match s.inputSrc with
  | none => s
  | some src => if env.selfAndParentShowing then { s with inputVs := some src } else s

/-- `release` (lines 690-699): deactivate, hide, then reset the recursion
guard and the source reference. -/
def releaseB (s : BindState) : BindState :=
  let s := deactivateB s
  let s := hideB s
  { s with inputChild := none, inputSrc := none }

/-- `acquire` (lines 670-688).  Resolves the name (`weak_source` throws when
not found, caught at line 684 which calls `release`), constructs the
recursion-guard child (throws on a render cycle, likewise caught), then
forwards activity and visibility.  Returns whether acquisition succeeded
together with the new binding state. -/
def acquireB (env : AcquireEnv) (s : BindState) : Bool × BindState :=
  match env.resolved with
  | none => (false, releaseB s)
  | some src =>
    let s := { s with inputSrc := some src }
    if env.wouldCycle then (false, releaseB s)
    else
      let s := { s with inputChild := some src }
      let s := activateB env s
      let s := showB env s
      (true, s)

/-- Visibility references this binding holds on source `src`. -/
def vsRefs (s : BindState) (src : Nat) : Nat :=
  if s.inputVs = some src then 1 else 0

/-- Activity references this binding holds on source `src`. -/
def acRefs (s : BindState) (src : Nat) : Nat :=
  if s.inputAc = some src then 1 else 0

/-! ### Concrete inputs used by counterexamples and witnesses -/

/-- The alias relation between the secondary and the base captured frame:
same validity, texture, color space and color format. -/
def aliasInv (s : InstState) : Prop :=
  s.haveInput = s.haveBase ∧ s.inputTex = s.baseTex ∧
  s.inputColorSpace = s.baseColorSpace ∧ s.inputColorFormat = s.baseColorFormat

/-- Secondary source for the tick divergence: sRGB-aware, negotiated space
`GS_CS_SRGB` (inside the 8-bit-equivalent range). -/
def c1Input : SourceInfo :=
  { colorSpace := .srgb, srgbAware := true }

/-- Tick environment for the divergence: base negotiates
`GS_CS_709_EXTENDED` (outside the 8-bit-equivalent range) while the bound
secondary negotiates `GS_CS_SRGB`. -/
def c1Env : TickEnv :=
  { base := { colorSpace := .ext709, srgbAware := true }
    input := some c1Input }

/-- A render environment where everything succeeds and no secondary source is
bound. -/
def okEnv : RenderEnv :=
  { selfOk := true
    parentOk := true
    targetOk := true
    width := 16
    height := 9
    input := none
    beginOk := true
    baseRenderThrows := false
    baseGetTex := some 7
    inputRenderThrows := false
    inputGetTex := some 8
    finalRenderThrows := false
    finalGetTex := some 9
    hostHasImageParam := true }

/-- Render environment in which the base capture succeeds up to the point
where `get_texture` throws. -/
def c4Env : RenderEnv :=
  { okEnv with baseGetTex := none }

/-- Render environment with a bound secondary source and every external call
succeeding. -/
def c4bEnv : RenderEnv :=
  { okEnv with input := some { width := 4, height := 4 } }

/-- Render environment whose upstream target reports zero width. -/
def c7Env : RenderEnv :=
  { okEnv with width := 0 }

/-- Instance state whose debug selector presents the base capture. -/
def dbg0State : InstState :=
  { initState with debugTexture := 0, haveBase := true, baseTex := some 3 }

/-- Instance state after a successful base capture and a failed secondary
capture within the current tick. -/
def c10State : InstState :=
  { initState with haveBase := true, baseTex := some 7 }

/-- An acquisition environment where the name resolves but binding the source
would create a render cycle. -/
def cycleEnv : AcquireEnv :=
  { resolved := some 5
    wouldCycle := true
    selfAndParentActive := true
    selfAndParentShowing := true }

/-- A fully bound binding state. -/
def boundState : BindState :=
  { inputSrc := some 4, inputChild := some 4, inputVs := some 4, inputAc := some 4 }

/-! ### Helper lemmas -/

/-- The base capture phase writes only the base slot: every field of the
secondary slot, and the debug selector, pass through unchanged. -/
theorem basePhase_preserves_input_slot (env : RenderEnv) (s : InstState) (g : GsFlags) :
    (basePhase env s g).st.haveInput = s.haveInput ∧
    (basePhase env s g).st.inputTex = s.inputTex ∧
    (basePhase env s g).st.inputColorSpace = s.inputColorSpace ∧
    (basePhase env s g).st.inputColorFormat = s.inputColorFormat ∧
    (basePhase env s g).st.debugTexture = s.debugTexture := by
  by_cases h : s.haveBase <;>
    simp only [basePhase, h, Bool.false_eq_true, if_true, if_false] <;>
    (try split_ifs) <;>
    (try rcases env.baseGetTex with _ | t) <;>
    simp

/-- The secondary capture phase writes only the secondary slot: every field of
the base slot, the final slot, and the debug selector pass through
unchanged. -/
theorem inputPhase_preserves_base_slot (env : RenderEnv) (s : InstState) (g : GsFlags) :
    (inputPhase env s g).st.haveBase = s.haveBase ∧
    (inputPhase env s g).st.baseTex = s.baseTex ∧
    (inputPhase env s g).st.baseColorSpace = s.baseColorSpace ∧
    (inputPhase env s g).st.baseColorFormat = s.baseColorFormat ∧
    (inputPhase env s g).st.haveFinal = s.haveFinal ∧
    (inputPhase env s g).st.finalTex = s.finalTex ∧
    (inputPhase env s g).st.debugTexture = s.debugTexture := by
  by_cases h : s.haveInput <;>
    simp only [inputPhase, h, Bool.false_eq_true, if_true, if_false] <;>
    rcases env.input with _ | d <;>
    (try split_ifs) <;>
    (try rcases env.inputGetTex with _ | t) <;>
    simp

/-- The mixing phase writes only the final slot: both capture slots and the
debug selector pass through unchanged. -/
theorem finalPhase_preserves_capture_slots (env : RenderEnv) (s : InstState) (g : GsFlags) :
    (finalPhase env s g).st.haveBase = s.haveBase ∧
    (finalPhase env s g).st.baseTex = s.baseTex ∧
    (finalPhase env s g).st.baseColorSpace = s.baseColorSpace ∧
    (finalPhase env s g).st.baseColorFormat = s.baseColorFormat ∧
    (finalPhase env s g).st.haveInput = s.haveInput ∧
    (finalPhase env s g).st.inputTex = s.inputTex ∧
    (finalPhase env s g).st.inputColorSpace = s.inputColorSpace ∧
    (finalPhase env s g).st.inputColorFormat = s.inputColorFormat ∧
    (finalPhase env s g).st.debugTexture = s.debugTexture := by
  by_cases h : !s.haveFinal && s.haveBase <;>
    simp only [finalPhase, h, Bool.false_eq_true, if_true, if_false] <;>
    (try split_ifs) <;>
    (try rcases env.finalGetTex with _ | t) <;>
    simp

/-- The debug override writes only the final slot's validity and texture: both
capture slots pass through unchanged. -/
theorem overridePhase_preserves_capture_slots (u : InstState) :
    (overridePhase u).haveBase = u.haveBase ∧
    (overridePhase u).baseTex = u.baseTex ∧
    (overridePhase u).baseColorSpace = u.baseColorSpace ∧
    (overridePhase u).baseColorFormat = u.baseColorFormat ∧
    (overridePhase u).haveInput = u.haveInput ∧
    (overridePhase u).inputTex = u.inputTex ∧
    (overridePhase u).inputColorSpace = u.inputColorSpace ∧
    (overridePhase u).inputColorFormat = u.inputColorFormat := by
  unfold overridePhase
  split_ifs <;> simp

/-! ### Claim theorems -/

/-- C1: the claim says the secondary's sRGB eligibility is computed from the
secondary's own negotiated color space.  The code (line 294) computes it from
the base's color space instead: at a tick where the base negotiates
`GS_CS_709_EXTENDED` while the sRGB-aware secondary negotiates `GS_CS_SRGB`,
`video_tick` leaves the secondary sRGB-ineligible although the rule stated by
the specification (`specSrgbEligible`) makes it eligible; the base's own
eligibility is nevertheless computed exactly as the claim states. -/
theorem tick_secondary_srgb_uses_base_space :
    (video_tick c1Env initState).inputSrgb = false ∧
    specSrgbEligible c1Input = true ∧
    (video_tick c1Env initState).inputColorSpace = GsColorSpace.srgb ∧
    (video_tick c1Env initState).baseSrgb = specSrgbEligible c1Env.base := by
  decide

/-- C2 (counterexample): the claim says a configuration key that is absent
yields zero for the channel's offset.  With every key absent, the offset
(`Channel.Value.<c>`, read into `channel_data::value` and `_precalc.base`)
takes its registered default `1.0`, not zero. -/
theorem update_absent_offset_key_is_one :
    ((updateChannels emptySettings initParams).channels Channel.red).value = 1 ∧
    ((updateChannels emptySettings initParams).channels Channel.red).value ≠ 0 := by
  constructor
  · rfl
  · norm_num [updateChannels, emptySettings, Settings.getDouble, defaultDouble]

/-- C2 (amended): the parameter update is total (the embedding is a total
function; the only throw in the source, line 170, sits behind a `std::map`
insert-then-find of the same key and is unreachable), and for every output
channel an absent key yields the registered default: `1.0` for the offset,
the neutral `1.0` for the scale, and `0.0` for each weight — mirrored
identically into the precalculated transform. -/
theorem update_missing_keys_use_defaults (S : Settings) (p : ParamState) (c c2 : Channel)
    (hv : S.doubles (SettingKey.channelValue c) = none)
    (hm : S.doubles (SettingKey.channelMultiplier c) = none)
    (hw : S.doubles (SettingKey.channelInput c c2) = none) :
    ((updateChannels S p).channels c).value = 1 ∧
    ((updateChannels S p).channels c).scale = 1 ∧
    ((updateChannels S p).channels c).values c2 = 0 ∧
    (updateChannels S p).precalc.base c = 1 ∧
    (updateChannels S p).precalc.scale c = 1 ∧
    (updateChannels S p).precalc.matrix c c2 = 0 := by
  simp [updateChannels, Settings.getDouble, hv, hm, hw, defaultDouble]

/-- Witness for the amended C2 at a concrete input. -/
theorem update_missing_keys_use_defaults_witness :
    ((updateChannels emptySettings initParams).channels Channel.green).value = 1 ∧
    ((updateChannels emptySettings initParams).channels Channel.green).scale = 1 ∧
    ((updateChannels emptySettings initParams).channels Channel.green).values Channel.blue = 0 ∧
    (updateChannels emptySettings initParams).precalc.base Channel.green = 1 ∧
    (updateChannels emptySettings initParams).precalc.scale Channel.green = 1 ∧
    (updateChannels emptySettings initParams).precalc.matrix Channel.green Channel.blue = 0 :=
  update_missing_keys_use_defaults emptySettings initParams Channel.green Channel.blue
    rfl rfl rfl

/-- C3: for every assignment of the four offsets, four scales and sixteen
weights (any rationals, in particular values outside the UI slider range
`[-100, 100]`), running `update` and then `save` reproduces each numeric
value exactly under every key `update` reads — the core never clamps. -/
theorem save_after_update_roundtrips (S T : Settings) (p : ParamState) (c c2 : Channel) :
    (saveChannels (updateChannels S p) T).getDouble (SettingKey.channelValue c)
      = S.getDouble (SettingKey.channelValue c) ∧
    (saveChannels (updateChannels S p) T).getDouble (SettingKey.channelMultiplier c)
      = S.getDouble (SettingKey.channelMultiplier c) ∧
    (saveChannels (updateChannels S p) T).getDouble (SettingKey.channelInput c c2)
      = S.getDouble (SettingKey.channelInput c c2) :=
  ⟨rfl, rfl, rfl⟩

/-- C9: both sRGB-related render flags (framebuffer-sRGB enable and
linear-sRGB mode) are restored to their pre-capture values on every exit path
of the base and of the secondary capture — success, the begin step returning
false, and an exception at any point, all covered by quantifying over the
outcome oracle. -/
theorem capture_restores_srgb_flags (env : RenderEnv) (s1 s2 : InstState)
    (g1 g2 : GsFlags) :
    (basePhase env s1 g1).gs = g1 ∧ (inputPhase env s2 g2).gs = g2 := by
  constructor
  · cases g1
    by_cases h : s1.haveBase <;>
      simp only [basePhase, h, Bool.false_eq_true, if_true, if_false] <;>
      (try split_ifs) <;>
      (try rcases env.baseGetTex with _ | t) <;>
      simp
  · cases g2
    by_cases h : s2.haveInput <;>
      simp only [inputPhase, h, Bool.false_eq_true, if_true, if_false] <;>
      rcases env.input with _ | d <;>
      (try split_ifs) <;>
      (try rcases env.inputGetTex with _ | t) <;>
      simp

/-- C4 (counterexample): the claim says that on any failure — including a
failure while retrieving the texture from the render target — the slot's
valid flag is false on exit.  In the code `_have_base` is set (line 394)
before `get_texture` is called (line 395), so when `get_texture` throws the
caught exception leaves the slot marked valid while its texture handle was
never recorded: a partial state the claim rules out. -/
theorem base_capture_get_texture_failure_leaves_valid :
    (basePhase c4Env initState flags0).st.haveBase = true ∧
    (basePhase c4Env initState flags0).st.baseTex = none := by
  decide

/-- C4 (amended): for a tick-fresh slot, on success the slot is marked valid
and its texture recorded; on a failure of the begin step or an exception
during the render the slot is untouched (valid stays false, texture
unchanged); on a failure while retrieving the texture from the render target
the valid flag has already been set — it remains true — and only the texture
handle is left unchanged.  The same holds for the secondary slot (which has
no begin step). -/
theorem capture_slot_validity (env : RenderEnv) (s : InstState) (g : GsFlags)
    (hb : s.haveBase = false) (hi : s.haveInput = false) :
    (env.beginOk = true → env.baseRenderThrows = false → ∀ t, env.baseGetTex = some t →
       (basePhase env s g).st.haveBase = true ∧
       (basePhase env s g).st.baseTex = some t) ∧
    (env.beginOk = false ∨ env.baseRenderThrows = true →
       (basePhase env s g).st.haveBase = false ∧
       (basePhase env s g).st.baseTex = s.baseTex) ∧
    (env.beginOk = true → env.baseRenderThrows = false → env.baseGetTex = none →
       (basePhase env s g).st.haveBase = true ∧
       (basePhase env s g).st.baseTex = s.baseTex) ∧
    (∀ d, env.input = some d →
      (env.inputRenderThrows = false → ∀ t, env.inputGetTex = some t →
         (inputPhase env s g).st.haveInput = true ∧
         (inputPhase env s g).st.inputTex = some t) ∧
      (env.inputRenderThrows = true →
         (inputPhase env s g).st.haveInput = false ∧
         (inputPhase env s g).st.inputTex = s.inputTex) ∧
      (env.inputRenderThrows = false → env.inputGetTex = none →
         (inputPhase env s g).st.haveInput = true ∧
         (inputPhase env s g).st.inputTex = s.inputTex)) := by
  refine ⟨?_, ?_, ?_, ?_⟩
  · intro h1 h2 t h3
    simp only [basePhase, hb, Bool.false_eq_true, if_false, h1, h2, h3, if_true]
    (try split_ifs) <;> simp_all
  · rintro (h1 | h1) <;>
      simp only [basePhase, hb, h1] <;>
      (try split_ifs) <;> simp_all
  · intro h1 h2 h3
    simp only [basePhase, hb, Bool.false_eq_true, if_false, h1, h2, h3, if_true]
    (try split_ifs) <;> simp_all
  · intro d hd
    refine ⟨?_, ?_, ?_⟩
    · intro h1 t h2
      simp only [inputPhase, hi, Bool.false_eq_true, if_false, hd, h1, h2]
      (try split_ifs) <;> simp_all
    · intro h1
      simp only [inputPhase, hi, hd, h1]
      (try split_ifs) <;> simp_all
    · intro h1 h2
      simp only [inputPhase, hi, Bool.false_eq_true, if_false, hd, h1, h2]
      (try split_ifs) <;> simp_all

/-- Witness for the amended C4 at a concrete input: a fully successful base
capture. -/
theorem capture_slot_validity_witness :
    (basePhase c4bEnv initState flags0).st.haveBase = true ∧
    (basePhase c4bEnv initState flags0).st.baseTex = some 7 :=
  (capture_slot_validity c4bEnv initState flags0 rfl rfl).1 rfl rfl 7 rfl

/-- C5: in every non-skipped render call the presented result is the debug
override applied to the state after the capture and mixing phases; the
override with selector base (0) or secondary (1) presents exactly that slot's
texture and validity, selector none falls through unchanged to the mixed
result, and the override never alters any field of the underlying base or
secondary capture slot. -/
theorem debug_override_presents_selected_capture (env : RenderEnv) (s : InstState)
    (g : GsFlags) (h1 : skipEarly env = false) (h2 : inputDimsZero env = false) :
    (video_render env s g).st = overridePhase (midState env s g) ∧
    (∀ u : InstState, u.debugTexture = 0 →
       (overridePhase u).finalTex = u.baseTex ∧ (overridePhase u).haveFinal = u.haveBase) ∧
    (∀ u : InstState, u.debugTexture = 1 →
       (overridePhase u).finalTex = u.inputTex ∧ (overridePhase u).haveFinal = u.haveInput) ∧
    (∀ u : InstState, u.debugTexture ≠ 0 → u.debugTexture ≠ 1 → overridePhase u = u) ∧
    (∀ u : InstState,
       (overridePhase u).haveBase = u.haveBase ∧ (overridePhase u).baseTex = u.baseTex ∧
       (overridePhase u).haveInput = u.haveInput ∧ (overridePhase u).inputTex = u.inputTex) := by
  refine ⟨?_, ?_, ?_, ?_, ?_⟩
  · simp only [video_render, midState, h1, h2, Bool.false_eq_true, if_false]
  · intro u hu
    simp [overridePhase, hu]
  · intro u hu
    simp [overridePhase, hu]
  · intro u hu0 hu1
    simp [overridePhase, hu0, hu1]
  · intro u
    exact ⟨(overridePhase_preserves_capture_slots u).1,
           (overridePhase_preserves_capture_slots u).2.1,
           (overridePhase_preserves_capture_slots u).2.2.2.2.1,
           (overridePhase_preserves_capture_slots u).2.2.2.2.2.1⟩

/-- Witness for C5 at a concrete input: with selector base, the presented
final texture and validity are the base slot's. -/
theorem debug_override_presents_selected_capture_witness :
    (overridePhase dbg0State).finalTex = dbg0State.baseTex ∧
    (overridePhase dbg0State).haveFinal = dbg0State.haveBase :=
  (debug_override_presents_selected_capture okEnv initState flags0 rfl rfl).2.1
    dbg0State rfl

/-- Helper: the alias relation between the secondary and base slots survives
the mixing pass and the debug override, which write only the final slot. -/
theorem aliasInv_after_mix_and_override (env : RenderEnv) (g : GsFlags) (u : InstState)
    (h : aliasInv u) : aliasInv (overridePhase (finalPhase env u g).st) := by
  have hF := finalPhase_preserves_capture_slots env u g
  have hO := overridePhase_preserves_capture_slots (finalPhase env u g).st
  refine ⟨?_, ?_, ?_, ?_⟩
  · rw [hO.2.2.2.2.1, hF.2.2.2.2.1, hO.1, hF.1]; exact h.1
  · rw [hO.2.2.2.2.2.1, hF.2.2.2.2.2.1, hO.2.1, hF.2.1]; exact h.2.1
  · rw [hO.2.2.2.2.2.2.1, hF.2.2.2.2.2.2.1, hO.2.2.1, hF.2.2.1]; exact h.2.2.1
  · rw [hO.2.2.2.2.2.2.2, hF.2.2.2.2.2.2.2.1, hO.2.2.2.1, hF.2.2.2.1]; exact h.2.2.2

/-- Helper: with no bound secondary source, the input phase runs no render
pass and establishes the alias relation, provided the slot is tick-fresh or
the relation already held. -/
theorem inputPhase_alias (env : RenderEnv) (g : GsFlags) (u : InstState)
    (hin : env.input = none) (hpre : u.haveInput = false ∨ aliasInv u) :
    aliasInv (inputPhase env u g).st ∧ (inputPhase env u g).ran = false := by
  by_cases hI : u.haveInput = true
  · have hA : aliasInv u := by
      rcases hpre with h | h
      · rw [hI] at h; exact absurd h (by simp)
      · exact h
    have heq : inputPhase env u g = { st := u, gs := g, ran := false } := by
      simp [inputPhase, hI]
    rw [heq]
    exact ⟨hA, rfl⟩
  · have hIf : u.haveInput = false := by simpa using hI
    have heq : inputPhase env u g =
        { st := { u with
                  haveInput := u.haveBase
                  inputTex := u.baseTex
                  inputColorFormat := u.baseColorFormat
                  inputColorSpace := u.baseColorSpace }
          gs := g
          ran := false } := by
      simp [inputPhase, hIf, hin]
    rw [heq]
    exact ⟨⟨rfl, rfl, rfl, rfl⟩, rfl⟩

/-- C6: in a render call with no secondary source bound (entered either fresh
from the tick, where the secondary validity flag is clear, or with the alias
relation already established earlier in the tick), no separate render pass is
executed for the secondary, and on exit the secondary captured frame aliases
the base captured frame: same validity, texture, color space and color
format. -/
theorem unbound_secondary_aliases_base (env : RenderEnv) (s : InstState) (g : GsFlags)
    (hin : env.input = none) (h1 : skipEarly env = false)
    (hpre : s.haveInput = false ∨ aliasInv s) :
    aliasInv (video_render env s g).st ∧
    (video_render env s g).trace.inputPassRan = false := by
  have h2 : inputDimsZero env = false := by simp [inputDimsZero, hin]
  have hpreB : (basePhase env s g).st.haveInput = false ∨ aliasInv (basePhase env s g).st := by
    have hBase := basePhase_preserves_input_slot env s g
    rcases hpre with h | h
    · exact Or.inl (hBase.1.trans h)
    · by_cases hsI : s.haveInput = true
      · have hsB : s.haveBase = true := by rw [← h.1]; exact hsI
        have hbeq : basePhase env s g = { st := s, gs := g, ran := false } := by
          simp [basePhase, hsB]
        rw [hbeq]
        exact Or.inr h
      · exact Or.inl (hBase.1.trans (by simpa using hsI))
  obtain ⟨hial, hran⟩ :=
    inputPhase_alias env (basePhase env s g).gs (basePhase env s g).st hin hpreB
  simp only [video_render, h1, h2, Bool.false_eq_true, if_false]
  exact ⟨aliasInv_after_mix_and_override env _ _ hial, hran⟩

/-- Witness for C6 at a concrete input: a fresh tick state, no bound
secondary, successful base capture. -/
theorem unbound_secondary_aliases_base_witness :
    aliasInv (video_render okEnv initState flags0).st ∧
    (video_render okEnv initState flags0).trace.inputPassRan = false :=
  unbound_secondary_aliases_base okEnv initState flags0 rfl rfl (Or.inl rfl)

/-- C7: a render call in which the base output width or height is zero, or a
bound secondary source reports a zero dimension, returns the skipped result
and leaves the instance state, the GPU sRGB flags, and in particular all
three captured-frame validity flags untouched. -/
theorem zero_dimension_render_skips (env : RenderEnv) (s : InstState) (g : GsFlags)
    (h : env.width = 0 ∨ env.height = 0 ∨
         (∃ i, env.input = some i ∧ (i.width = 0 ∨ i.height = 0))) :
    (video_render env s g).st = s ∧ (video_render env s g).gs = g ∧
    (video_render env s g).trace.result = RenderResult.skipped := by
  have hskip : skipEarly env = true ∨ inputDimsZero env = true := by
    rcases h with h | h | ⟨i, hi, hd⟩
    · left; simp [skipEarly, h]
    · left; simp [skipEarly, h]
    · right; rcases hd with hd | hd <;> simp [inputDimsZero, hi, hd]
  by_cases h1 : skipEarly env
  · simp [video_render, h1, skippedTrace]
  · rcases hskip with h2 | h2
    · exact absurd h2 (by simpa using h1)
    · simp [video_render, h1, h2, skippedTrace]

/-- Witness for C7 at a concrete input: zero base width. -/
theorem zero_dimension_render_skips_witness :
    (video_render c7Env initState flags0).st = initState ∧
    (video_render c7Env initState flags0).gs = flags0 ∧
    (video_render c7Env initState flags0).trace.result = RenderResult.skipped :=
  zero_dimension_render_skips c7Env initState flags0 (Or.inl rfl)

/-- C8: whenever `acquire` fails — the name does not resolve, or binding the
source would create a render cycle back to the owning filter — it returns
failure and leaves the binding fully unbound (source reference, cycle-guard
child and visibility/activity references all dropped, so the binding holds no
reference on any source); and `release` always produces the unbound state and
is therefore idempotent from any state. -/
theorem acquire_failure_unbinds_release_idempotent (env : AcquireEnv) (s : BindState) :
    ((acquireB env s).1 = false → (acquireB env s).2 = unbound) ∧
    ((acquireB env s).1 = false → ∀ src : Nat,
        vsRefs (acquireB env s).2 src = 0 ∧ acRefs (acquireB env s).2 src = 0) ∧
    releaseB s = unbound ∧
    releaseB (releaseB s) = releaseB s := by
  have hrelAll : ∀ u : BindState, releaseB u = unbound := by
    intro u
    simp [releaseB, deactivateB, hideB, unbound]
  have hfail : (acquireB env s).1 = false → (acquireB env s).2 = unbound := by
    intro h
    rcases henv : env.resolved with _ | src
    · simp [acquireB, henv, hrelAll]
    · by_cases hc : env.wouldCycle = true
      · simp [acquireB, henv, hc, hrelAll]
      · simp [acquireB, henv, hc] at h
  refine ⟨hfail, ?_, hrelAll s, by rw [hrelAll, hrelAll]⟩
  intro h src
  rw [hfail h]
  simp [vsRefs, acRefs, unbound]

/-- Witness for C8 at a concrete input: a cycle-rejected acquisition from a
fully bound state, and idempotent release. -/
theorem acquire_failure_unbinds_release_idempotent_witness :
    (acquireB cycleEnv boundState).2 = unbound ∧
    releaseB (releaseB boundState) = releaseB boundState :=
  ⟨(acquire_failure_unbinds_release_idempotent cycleEnv boundState).1 rfl,
   (acquire_failure_unbinds_release_idempotent cycleEnv boundState).2.2.2⟩

/-- C10: the mixing pass is gated only on the final slot being invalid and the
base slot being valid.  Even when the secondary slot is invalid (its capture
failed this tick), the pass executes, binding the base texture and whatever
texture the secondary slot currently holds, and a successful pass marks the
final slot valid. -/
theorem mix_pass_ignores_secondary_validity (env : RenderEnv) (s : InstState)
    (g : GsFlags) (hb : s.haveBase = true) (hf : s.haveFinal = false)
    (hi : s.haveInput = false) :
    (finalPhase env s g).mix = some { texA := s.baseTex, texB := s.inputTex } ∧
    (env.finalRenderThrows = false → ∀ t, env.finalGetTex = some t →
       (finalPhase env s g).st.haveFinal = true ∧
       (finalPhase env s g).st.finalTex = some t) := by
  constructor
  · simp only [finalPhase, hb, hf, Bool.not_false, Bool.and_self, if_true]
    (try split_ifs) <;> simp_all
  · intro h1 t h2
    simp only [finalPhase, hb, hf, Bool.not_false, Bool.and_self, if_true, h1, h2]
    (try split_ifs) <;> simp_all

/-- Witness for C10 at a concrete input: valid base, invalid secondary,
successful mixing pass. -/
theorem mix_pass_ignores_secondary_validity_witness :
    (finalPhase okEnv c10State flags0).mix =
      some { texA := c10State.baseTex, texB := c10State.inputTex } ∧
    (finalPhase okEnv c10State flags0).st.haveFinal = true :=
  ⟨(mix_pass_ignores_secondary_validity okEnv c10State flags0 rfl rfl rfl).1,
   ((mix_pass_ignores_secondary_validity okEnv c10State flags0 rfl rfl rfl).2
      rfl 9 rfl).1⟩

end DynamicMask
